import Mathlib

/-!
Shallow embedding of the construction-dashboard client
(`src/unnamed/part_000`, the dashboard page, and `src/src/app/login/page.tsx`,
the login page) and proofs of the specification's claims about it.

The dashboard page fetches three database collections (plans, workflows,
projects) and one weather snapshot, stores them in component-local state, and
renders panels from that state.  The login page performs a password sign-in
against the identity provider.  Machine-level concerns (React scheduling, the
network) are abstracted: each run of the data loader is a function of the
previous state and of the four request results, and each render is a function
of the state.
-/

/-- A value thrown in JavaScript, as observed by a `catch (error: unknown)`
block: its `message` property and whether it is an `instanceof Error`.  The
`catch` blocks in both source files branch on exactly these two facts. -/
structure JSError where
  message : String
  isInstanceOfError : Bool
deriving DecidableEq, Repr

/-- A JavaScript number as consumed by this code.  The dashboard only ever
interpolates a number into JSX text (`{weather.main.temp}°C`), so the model
carries the decimal rendering that interpolation produces. -/
structure JSNumber where
  render : String
deriving DecidableEq, Repr

/-- `interface Plan` (dashboard page, lines 24–29). -/
structure Plan where
  id : String
  task : String
  start_date : String
  project_id : String
deriving DecidableEq, Repr

/-- `interface Workflow` (dashboard page, lines 31–36). -/
structure Workflow where
  id : String
  name : String
  status : String
  project_id : String
deriving DecidableEq, Repr

/-- The `location` object of a project (`{ lat: number; lng: number }`). -/
structure Location where
  lat : ℚ
  lng : ℚ
deriving DecidableEq, Repr

/-- `interface Project` (dashboard page, lines 38–42).  The TypeScript type
declares `location` non-null, but the type is erased at runtime and the
remote row may hold `null`; the runtime value is therefore an `Option`. -/
structure Project where
  id : String
  name : String
  location : Option Location
deriving DecidableEq, Repr

/-- `weather: { description: string }[]` element (dashboard page, line 46). -/
structure WeatherDesc where
  description : String
deriving DecidableEq, Repr

/-- `main: { temp: number }` (dashboard page, line 45). -/
structure WeatherMain where
  temp : JSNumber
deriving DecidableEq, Repr

/-- `interface Weather` (dashboard page, lines 44–48). -/
structure Weather where
  main : WeatherMain
  weather : List WeatherDesc
  name : String
deriving DecidableEq, Repr

/-- The plans query (dashboard page, lines 64–68): select from `plans` with
`.gte('start_date', today).lte('start_date', today)`.  The remote store
applies both range filters to the table. -/
def plansQuery (db : List Plan) (today : String) : List Plan :=
  (db.filter (fun p => decide (today ≤ p.start_date))).filter
    (fun p => decide (p.start_date ≤ today))

/-- The workflows query (dashboard page, lines 73–76): select from
`workflows` with `.eq('status', 'delayed')`. -/
def workflowsQuery (db : List Workflow) : List Workflow :=
  db.filter (fun w => w.status == "delayed")

/-- The projects query (dashboard page, lines 81–83): select all rows of
`projects`. -/
def projectsQuery (db : List Project) : List Project :=
  db

/-- The `{ data, error }` pair a database query resolves to. -/
structure QueryResult (α : Type) where
  data : Option (List α)
  error : Option JSError
deriving DecidableEq, Repr

/-- The component-local state of the dashboard page (lines 51–55):
`plans`, `workflows`, `projects`, `weather`, `loading`. -/
structure DashboardState where
  plans : List Plan
  workflows : List Workflow
  projects : List Project
  weather : Option Weather
  loading : Bool
deriving DecidableEq, Repr

/-- The initial dashboard state (lines 51–55): `useState<Plan[]>([])`,
`useState<Workflow[]>([])`, `useState<Project[]>([])`,
`useState<Weather | null>(null)`, `useState(true)`. -/
def initialDashboardState : DashboardState :=
  { plans := [], workflows := [], projects := [], weather := none,
    loading := true }

/-- A toast notification; `isError` distinguishes `toast.error` from
`toast.success`. -/
structure Toast where
  isError : Bool
  text : String
deriving DecidableEq, Repr

/-- One run's worth of request results: what each of the four awaited calls
in `fetchData` resolves to.  The axios call either resolves with a `Weather`
body or rejects with a thrown error. -/
structure FetchResults where
  plansRes : QueryResult Plan
  workflowsRes : QueryResult Workflow
  projectsRes : QueryResult Project
  weatherRes : Except JSError Weather
deriving Repr

/-- The message the dashboard's `catch` extracts (line 93):
`error instanceof Error ? error.message : 'An unexpected error occurred'`. -/
def errMessage (e : JSError) : String :=
  if e.isInstanceOfError then e.message else "An unexpected error occurred"

/-- The toast the dashboard's `catch` emits (line 94):
`toast.error('Error fetching data: ' + errorMessage)`. -/
def fetchErrorToast (e : JSError) : Toast :=
  { isError := true, text := "Error fetching data: " ++ errMessage e }

/-- `fetchData` (dashboard page, lines 59–98) as a function of the previous
state and of this run's request results; returns the new state and the
emitted toasts.  The body is sequential: it awaits the plans query, throws on
its error, applies `plansData || []`, then does the same for workflows and
projects, then awaits the weather call and stores its body; the `catch`
emits one error toast and the `finally` clears `loading`. -/
def fetchData (st : DashboardState) (r : FetchResults) :
    DashboardState × List Toast :=
  let st0 := { st with loading := true }
  match r.plansRes.error with
  | some e => ({ st0 with loading := false }, [fetchErrorToast e])
  | none =>
    let st1 := { st0 with plans := r.plansRes.data.getD [] }
    match r.workflowsRes.error with
    | some e => ({ st1 with loading := false }, [fetchErrorToast e])
    | none =>
      let st2 := { st1 with workflows := r.workflowsRes.data.getD [] }
      match r.projectsRes.error with
      | some e => ({ st2 with loading := false }, [fetchErrorToast e])
      | none =>
        let st3 := { st2 with projects := r.projectsRes.data.getD [] }
        match r.weatherRes with
        | .error e => ({ st3 with loading := false }, [fetchErrorToast e])
        | .ok w => ({ st3 with weather := some w, loading := false }, [])

/-- A runtime type error raised while rendering JSX, such as reading a
property of `undefined` or `null`. -/
inductive RenderError where
  | typeError (msg : String)
deriving DecidableEq, Repr

/-- The weather panel (dashboard page, lines 167–174).  When `weather` is
null it renders the loading placeholder; otherwise it evaluates
`weather.weather[0].description`, which throws a `TypeError` when the
`weather` array is empty, and renders the two text lines. -/
def renderWeatherPanel (w : Option Weather) :
    Except RenderError (List String) :=
  match w with
  | none => .ok ["Loading weather..."]
  | some w =>
    match w.weather.head? with
    | none => .error (.typeError "cannot read description of undefined")
    | some w0 =>
        .ok [w0.description ++ " in " ++ w.name,
             w.main.temp.render ++ "°C"]

/-- A rendered leaflet marker: its `position` pair and its popup text. -/
structure Marker where
  position : ℚ × ℚ
  popup : String
deriving DecidableEq, Repr

/-- One marker of the project map (dashboard page, lines 195–197):
`position={[project.location.lat, project.location.lng]}` throws a
`TypeError` when `location` is null; the popup text is the project name. -/
def renderMarker (p : Project) : Except RenderError Marker :=
  match p.location with
  | none => .error (.typeError "cannot read lat of null")
  | some loc => .ok { position := (loc.lat, loc.lng), popup := p.name }

/-- The map's marker list (dashboard page, lines 194–198):
`projects.map((project) => <Marker ...>)`, evaluated left to right. -/
def renderMarkers : List Project → Except RenderError (List Marker)
  | [] => .ok []
  | p :: ps => do
    let m ← renderMarker p
    let ms ← renderMarkers ps
    pure (m :: ms)

/-- The workflows panel's list items (dashboard page, lines 153–158): one
`<li>` with the workflow's name per workflow in state. -/
def renderWorkflowsPanel (ws : List Workflow) : List String :=
  ws.map (fun w => w.name)

/-- The `{ error }` part of the identity provider's response to
`signInWithPassword`. -/
structure AuthResult where
  error : Option JSError
deriving DecidableEq, Repr

/-- The observable outcome of one `handleEmailLogin` run: where the router
navigated (if anywhere), the success and error toasts emitted, and the final
value of the `loading` flag. -/
structure LoginOutcome where
  navigatedTo : Option String
  successToasts : List String
  errorToasts : List String
  loading : Bool
deriving DecidableEq, Repr

/-- The message the login page's `catch` extracts (login page, lines 34–36):
`error instanceof Error || (error as SupabaseError).message ? (...).message
: 'An unexpected error occurred'` — the message is used whenever the thrown
value is an `Error` instance or its `message` property is truthy (a string
is truthy exactly when it is nonempty). -/
def loginErrMessage (e : JSError) : String :=
  if e.isInstanceOfError || e.message != "" then e.message
  else "An unexpected error occurred"

/-- `handleEmailLogin` (login page, lines 21–41) as a function of the
provider's response.  On `error` null: success toast, then
`router.push('/dashboard')`.  On `error` non-null: the error is thrown, the
`catch` emits the failure toast, and no navigation happens.  The `finally`
clears `loading` on both paths. -/
def handleEmailLogin (res : AuthResult) : LoginOutcome :=
  match res.error with
  | none =>
      { navigatedTo := some "/dashboard",
        successToasts := ["Login successful!"], errorToasts := [],
        loading := false }
  | some e =>
      { navigatedTo := none, successToasts := [],
        errorToasts := ["Login failed: " ++ loginErrMessage e],
        loading := false }

/-- `startsWith hay needle`: the character list `needle` is an initial
segment of `hay`. -/
def startsWith : List Char → List Char → Bool
  | _, [] => true
  | [], _ :: _ => false
  | h :: hs, n :: ns => h == n && startsWith hs ns

/-- `containsSeq needle hay`: `needle` occurs contiguously inside `hay`. -/
def containsSeq (needle : List Char) : List Char → Bool
  | [] => needle.isEmpty
  | h :: hs => startsWith (h :: hs) needle || containsSeq needle hs

/-- `strContains hay needle`: the string `needle` occurs as a substring of
`hay` (JavaScript's `hay.includes(needle)`). -/
def strContains (hay needle : String) : Bool :=
  containsSeq needle.data hay.data

theorem startsWith_refl (l : List Char) : startsWith l l = true := by
  induction l with
  | nil => rfl
  | cons h t ih => simp [startsWith, ih]

theorem startsWith_append (n rest : List Char) :
    startsWith (n ++ rest) n = true := by
  induction n with
  | nil => cases rest <;> rfl
  | cons h t ih => simp [startsWith, ih]

theorem containsSeq_append_left (n : List Char) :
    ∀ pre : List Char, containsSeq n (pre ++ n) = true := by
  intro pre
  induction pre with
  | nil =>
      cases n with
      | nil => rfl
      | cons h t => simp [containsSeq, startsWith_refl]
  | cons p ps ih => simp [containsSeq, ih]

theorem strContains_append_left (pre m : String) :
    strContains (pre ++ m) m = true := by
  have h : (pre ++ m).data = pre.data ++ m.data := by
    simp [String.data_append]
  simp [strContains, h, containsSeq_append_left]

theorem strContains_empty (h : String) : strContains h "" = true := by
  cases hd : h.data with
  | nil => simp [strContains, hd, containsSeq]
  | cons c cs => simp [strContains, hd, containsSeq, startsWith]

theorem fetchData_loading_off (st : DashboardState) (r : FetchResults) :
    (fetchData st r).1.loading = false := by
  rcases r with ⟨⟨pd, pe⟩, ⟨wd, we⟩, ⟨jd, je⟩, wr⟩
  cases pe <;> cases we <;> cases je <;> cases wr <;> rfl

theorem fetchData_plans_out (st : DashboardState) (r : FetchResults)
    (hp : r.plansRes.error = none) :
    (fetchData st r).1.plans = r.plansRes.data.getD [] := by
  rcases r with ⟨⟨pd, pe⟩, ⟨wd, we⟩, ⟨jd, je⟩, wr⟩
  cases pe <;> cases we <;> cases je <;> cases wr <;> first | rfl | simp_all

theorem fetchData_workflows_out (st : DashboardState) (r : FetchResults)
    (hp : r.plansRes.error = none) (hw : r.workflowsRes.error = none) :
    (fetchData st r).1.workflows = r.workflowsRes.data.getD [] := by
  rcases r with ⟨⟨pd, pe⟩, ⟨wd, we⟩, ⟨jd, je⟩, wr⟩
  cases pe <;> cases we <;> cases je <;> cases wr <;> first | rfl | simp_all

theorem fetchData_projects_out (st : DashboardState) (r : FetchResults)
    (hp : r.plansRes.error = none) (hw : r.workflowsRes.error = none)
    (hj : r.projectsRes.error = none) :
    (fetchData st r).1.projects = r.projectsRes.data.getD [] := by
  rcases r with ⟨⟨pd, pe⟩, ⟨wd, we⟩, ⟨jd, je⟩, wr⟩
  cases pe <;> cases we <;> cases je <;> cases wr <;> first | rfl | simp_all

/-- C3: for a fixed current date `D`, the plans query built from the range
filters `gte start_date D` and `lte start_date D` selects exactly the plans
whose start date equals `D` and no others — the conjunction of the two range
filters is equivalent to a single equality filter. -/
theorem plansQuery_selects_exactly_today (db : List Plan) (D : String) :
    (∀ p, p ∈ plansQuery db D ↔ p ∈ db ∧ p.start_date = D) ∧
    plansQuery db D = db.filter (fun p => p.start_date == D) := by
  have hpt : ∀ a : Plan,
      (decide (a.start_date ≤ D) && decide (D ≤ a.start_date)) =
        (a.start_date == D) := by
    intro a
    by_cases h : a.start_date = D
    · simp [h]
    · have hc : ¬(a.start_date ≤ D ∧ D ≤ a.start_date) :=
        fun hc => h (le_antisymm hc.1 hc.2)
      rcases not_and_or.mp hc with h1 | h1 <;> simp [h1, h]
  have heq : plansQuery db D = db.filter (fun p => p.start_date == D) := by
    unfold plansQuery
    rw [List.filter_filter]
    exact List.filter_congr (fun a _ => hpt a)
  refine ⟨fun p => ?_, heq⟩
  rw [heq]
  simp [List.mem_filter]

/-- C5: the workflows panel state, populated from a successful run of the
`eq status delayed` query over a workflow table, contains exactly the
workflows of the table whose status is `delayed`. -/
theorem workflows_panel_exactly_delayed (st : DashboardState)
    (r : FetchResults) (db : List Workflow)
    (hp : r.plansRes.error = none)
    (hw : r.workflowsRes = ⟨some (workflowsQuery db), none⟩)
    (w : Workflow) :
    w ∈ (fetchData st r).1.workflows ↔ w ∈ db ∧ w.status = "delayed" := by
  have hout := fetchData_workflows_out st r hp (by rw [hw])
  rw [hw] at hout
  rw [hout]
  simp [workflowsQuery, List.mem_filter, and_comm]

/-- C10: every run of the dashboard data loader and every run of the login
handler clears its loading flag, whatever the request results were — both
`finally` blocks set `loading` to `false`. -/
theorem loading_flag_always_cleared (st : DashboardState) (r : FetchResults)
    (res : AuthResult) :
    (fetchData st r).1.loading = false ∧
    (handleEmailLogin res).loading = false := by
  refine ⟨fetchData_loading_off st r, ?_⟩
  rcases res with ⟨err⟩
  cases err <;> rfl

/-- A delayed workflow used to instantiate the C5 theorem. -/
def wfC5 : Workflow :=
  { id := "w1", name := "Pour footing", status := "delayed",
    project_id := "p1" }

/-- A two-workflow table (one delayed, one active) used to instantiate the
C5 theorem. -/
def dbC5 : List Workflow :=
  [wfC5,
   { id := "w2", name := "Frame walls", status := "active",
     project_id := "p1" }]

/-- Request results used to instantiate the C5 theorem: the workflows query
succeeds over `dbC5`. -/
def resultsC5 : FetchResults :=
  { plansRes := { data := some [], error := none },
    workflowsRes := { data := some (workflowsQuery dbC5), error := none },
    projectsRes := { data := some [], error := none },
    weatherRes := .error { message := "weather down",
                           isInstanceOfError := true } }

theorem workflows_panel_exactly_delayed_witness :
    wfC5 ∈ (fetchData initialDashboardState resultsC5).1.workflows ↔
      wfC5 ∈ dbC5 ∧ wfC5.status = "delayed" :=
  workflows_panel_exactly_delayed initialDashboardState resultsC5 dbC5
    rfl rfl wfC5

/-- C4: on an email/password sign-in, a null provider error leads to the
success toast and navigation to `/dashboard`; a non-null provider error
leads to no navigation and a single failure toast whose text contains the
provider's error message. -/
theorem login_navigates_iff_no_error (res : AuthResult) :
    (res.error = none →
      handleEmailLogin res =
        { navigatedTo := some "/dashboard",
          successToasts := ["Login successful!"], errorToasts := [],
          loading := false }) ∧
    (∀ e, res.error = some e →
      (handleEmailLogin res).navigatedTo = none ∧
      ∃ t, (handleEmailLogin res).errorToasts = [t] ∧
        strContains t e.message = true) := by
  rcases res with ⟨err⟩
  constructor
  · intro h
    simp only at h
    subst h
    rfl
  · intro e h
    simp only at h
    subst h
    refine ⟨rfl, "Login failed: " ++ loginErrMessage e, rfl, ?_⟩
    unfold loginErrMessage
    split
    · exact strContains_append_left _ _
    · next hcond =>
      have hmsg : e.message = "" := by
        rcases Bool.or_eq_false_iff.mp (Bool.of_not_eq_true hcond) with ⟨-, h2⟩
        simpa using h2
      rw [hmsg]
      exact strContains_empty _

/-- A provider error used to instantiate the C4 theorem. -/
def authErrC4 : JSError :=
  { message := "Invalid login credentials", isInstanceOfError := false }

theorem login_navigates_iff_no_error_witness :
    (handleEmailLogin { error := some authErrC4 }).navigatedTo = none :=
  ((login_navigates_iff_no_error { error := some authErrC4 }).2 authErrC4
    rfl).1

/-- The successful weather response fixed by C6. -/
def kathmanduResponse : Weather :=
  { main := { temp := { render := "21.5" } },
    weather := [{ description := "clear sky" }], name := "Kathmandu" }

/-- C6: with the weather state holding the response
`{main:{temp:21.5}, weather:[{description:"clear sky"}], name:"Kathmandu"}`,
the weather panel renders the lines "clear sky in Kathmandu" and
"21.5°C". -/
theorem weather_panel_renders_kathmandu :
    renderWeatherPanel (some kathmanduResponse) =
      .ok ["clear sky in Kathmandu", "21.5°C"] := rfl

/-- C7: when every project in the projects state has a coordinate pair, the
map renders exactly one marker per project — the marker list has the same
length as the project list — and the marker at each index carries that
project's name as its popup text. -/
theorem markers_one_per_project (ps : List Project)
    (hloc : ∀ p ∈ ps, p.location.isSome = true) :
    ∃ ms, renderMarkers ps = .ok ms ∧ ms.length = ps.length ∧
      ∀ (i : ℕ) (hi : i < ms.length) (hj : i < ps.length),
        (ms.get ⟨i, hi⟩).popup = (ps.get ⟨i, hj⟩).name := by
  induction ps with
  | nil => exact ⟨[], rfl, rfl, fun i hi hj => absurd hj (by simp)⟩
  | cons p ps ih =>
    have hp : p.location.isSome = true := hloc p (List.mem_cons_self p ps)
    obtain ⟨loc, hlocp⟩ := Option.isSome_iff_exists.mp hp
    obtain ⟨ms, hms, hlen, hpop⟩ :=
      ih (fun q hq => hloc q (List.mem_cons_of_mem p hq))
    refine ⟨{ position := (loc.lat, loc.lng), popup := p.name } :: ms,
      ?_, by simp [hlen], ?_⟩
    · simp only [renderMarkers, renderMarker, hlocp, hms]
      rfl
    · intro i hi hj
      cases i with
      | zero => rfl
      | succ k =>
        exact hpop k (Nat.lt_of_succ_lt_succ hi) (Nat.lt_of_succ_lt_succ hj)

/-- A project with a coordinate pair used to instantiate the C7 theorem. -/
def projC7 : Project :=
  { id := "p1", name := "Ring Road Site",
    location := some { lat := 27, lng := 85 } }

theorem markers_one_per_project_witness :
    ∃ ms, renderMarkers [projC7] = .ok ms ∧ ms.length = [projC7].length ∧
      ∀ (i : ℕ) (hi : i < ms.length) (hj : i < [projC7].length),
        (ms.get ⟨i, hi⟩).popup = ([projC7].get ⟨i, hj⟩).name :=
  markers_one_per_project [projC7] (by intro p hp; simp at hp; simp [hp, projC7])

/-- A delayed workflow whose fetched result the C1 counterexample shows is
never applied. -/
def wfC1 : Workflow :=
  { id := "w1", name := "Excavation", status := "delayed",
    project_id := "p1" }

/-- A project whose fetched result the C1 counterexample shows is never
applied. -/
def projC1 : Project :=
  { id := "p1", name := "Tower A",
    location := some { lat := 27, lng := 85 } }

/-- Request results for C1: the plans query fails while the workflows and
projects queries succeed with non-empty data. -/
def resultsC1 : FetchResults :=
  { plansRes := { data := none,
                  error := some { message := "plans relation unavailable",
                                  isInstanceOfError := true } },
    workflowsRes := { data := some [wfC1], error := none },
    projectsRes := { data := some [projC1], error := none },
    weatherRes := .error { message := "not reached",
                           isInstanceOfError := true } }

/-- C1 fails on the code: the loader awaits the queries sequentially and
throws on the plans error, so when the plans query fails the workflows and
projects panel states do not receive the successfully fetched results —
starting from the initial state they stay empty. -/
theorem plans_failure_counterexample :
    resultsC1.plansRes.error.isSome = true ∧
    resultsC1.workflowsRes.data = some [wfC1] ∧
    resultsC1.projectsRes.data = some [projC1] ∧
    (fetchData initialDashboardState resultsC1).1.workflows ≠ [wfC1] ∧
    (fetchData initialDashboardState resultsC1).1.projects ≠ [projC1] := by
  refine ⟨rfl, rfl, rfl, ?_, ?_⟩ <;> decide

/-- C1 amended: when the plans query fails, the loader's catch runs before
any panel is set, so all four panel states keep exactly their previous
values, the loading flag is cleared, and a single error notification
reporting the plans error is emitted. -/
theorem plans_failure_leaves_panels_and_notifies (st : DashboardState)
    (r : FetchResults) (e : JSError)
    (h : r.plansRes.error = some e) :
    (fetchData st r).1.plans = st.plans ∧
    (fetchData st r).1.workflows = st.workflows ∧
    (fetchData st r).1.projects = st.projects ∧
    (fetchData st r).1.weather = st.weather ∧
    (fetchData st r).1.loading = false ∧
    (fetchData st r).2 = [fetchErrorToast e] ∧
    (fetchErrorToast e).isError = true := by
  rcases r with ⟨⟨pd, pe⟩, ⟨wd, we⟩, ⟨jd, je⟩, wr⟩
  cases pe with
  | none => simp at h
  | some e0 =>
    simp only at h
    obtain rfl : e0 = e := Option.some.inj h
    exact ⟨rfl, rfl, rfl, rfl, rfl, rfl, rfl⟩

theorem plans_failure_leaves_panels_and_notifies_witness :
    (fetchData initialDashboardState resultsC1).1.workflows =
      initialDashboardState.workflows ∧
    (fetchData initialDashboardState resultsC1).2 =
      [fetchErrorToast { message := "plans relation unavailable",
                         isInstanceOfError := true }] := by
  have h := plans_failure_leaves_panels_and_notifies initialDashboardState
    resultsC1 { message := "plans relation unavailable",
                isInstanceOfError := true } rfl
  exact ⟨h.2.1, h.2.2.2.2.2.1⟩

/-- A stored weather response whose `weather` array is empty, as C2
considers. -/
def emptyArrayWeather : Weather :=
  { main := { temp := { render := "21.5" } }, weather := [],
    name := "Kathmandu" }

/-- A project whose `location` is null at runtime, as C2 considers. -/
def nullLocationProject : Project :=
  { id := "p9", name := "Bridge Site", location := none }

/-- C2 fails on the code: the weather panel reads
`weather.weather[0].description` and a marker reads `project.location.lat`
without guards, so a stored response with an empty `weather` array, or a
project row with a null `location`, makes rendering throw a type error
rather than continue. -/
theorem render_crash_counterexample :
    renderWeatherPanel (some emptyArrayWeather) =
      .error (.typeError "cannot read description of undefined") ∧
    renderMarker nullLocationProject =
      .error (.typeError "cannot read lat of null") := ⟨rfl, rfl⟩

/-- C2 amended: rendering completes without a crash provided every stored
weather response has a non-empty `weather` array and every project in state
has a non-null `location`; the weather-null case renders the loading
placeholder. -/
theorem render_no_crash_on_guarded_state (w : Option Weather)
    (ps : List Project)
    (hw : ∀ x ∈ w, x.weather ≠ [])
    (hp : ∀ p ∈ ps, p.location.isSome = true) :
    (∃ texts, renderWeatherPanel w = .ok texts) ∧
    (∃ ms, renderMarkers ps = .ok ms) := by
  constructor
  · cases w with
    | none => exact ⟨["Loading weather..."], rfl⟩
    | some x =>
      have hx := hw x (by simp)
      cases hlist : x.weather with
      | nil => exact absurd hlist hx
      | cons d ds =>
        exact ⟨[d.description ++ " in " ++ x.name,
                x.main.temp.render ++ "°C"],
          by simp [renderWeatherPanel, hlist]⟩
  · induction ps with
    | nil => exact ⟨[], rfl⟩
    | cons p rest ih =>
      have hploc := hp p (List.mem_cons_self p rest)
      obtain ⟨loc, hlocp⟩ := Option.isSome_iff_exists.mp hploc
      obtain ⟨ms, hms⟩ := ih (fun q hq => hp q (List.mem_cons_of_mem p hq))
      refine ⟨{ position := (loc.lat, loc.lng), popup := p.name } :: ms, ?_⟩
      simp only [renderMarkers, renderMarker, hlocp, hms]
      rfl

theorem render_no_crash_on_guarded_state_witness :
    ∃ ms, renderMarkers
      [{ id := "p1", name := "Tower B",
         location := some { lat := 27, lng := 85 } }] = .ok ms :=
  (render_no_crash_on_guarded_state
    (some { main := { temp := { render := "20" } },
            weather := [{ description := "haze" }], name := "Kathmandu" })
    [{ id := "p1", name := "Tower B",
       location := some { lat := 27, lng := 85 } }]
    (by intro x hx; simp at hx; subst hx; simp)
    (by intro p hp; simp at hp; subst hp; rfl)).2

/-- The error the dashboard loader's catch receives: the error of the first
failing awaited call of the run, in source order (plans, workflows,
projects, weather), if any call fails. -/
def firstError (r : FetchResults) : Option JSError :=
  match r.plansRes.error with
  | some e => some e
  | none =>
    match r.workflowsRes.error with
    | some e => some e
    | none =>
      match r.projectsRes.error with
      | some e => some e
      | none =>
        match r.weatherRes with
        | .error e => some e
        | .ok _ => none

/-- Request results for the C8 counterexample: the workflows query fails
with an error object carrying message "boom" that is not an `instanceof
Error` (such as a plain-object client error), after a successful plans
query. -/
def resultsC8 : FetchResults :=
  { plansRes := { data := some [], error := none },
    workflowsRes := { data := none,
                      error := some { message := "boom",
                                      isInstanceOfError := false } },
    projectsRes := { data := some [], error := none },
    weatherRes := .ok { main := { temp := { render := "20" } },
                        weather := [{ description := "haze" }],
                        name := "Kathmandu" } }

/-- C8 fails on the code: when the thrown error is not an `instanceof
Error`, the catch discards its message and toasts the generic text, so the
only emitted notification does not contain the underlying error message
"boom". -/
theorem failure_toast_counterexample :
    (fetchData initialDashboardState resultsC8).2 =
      [{ isError := true,
         text := "Error fetching data: An unexpected error occurred" }] ∧
    strContains "Error fetching data: An unexpected error occurred" "boom"
      = false := by
  exact ⟨rfl, by decide⟩

theorem fetchErrorToast_contains (e : JSError)
    (hi : e.isInstanceOfError = true) :
    strContains (fetchErrorToast e).text e.message = true := by
  simp only [fetchErrorToast, errMessage, hi, if_true]
  exact strContains_append_left _ _

/-- C8 amended: on any request failure the loader emits exactly one error
notification for the first failing call; its text contains the underlying
error message whenever the thrown error is an `instanceof Error` (a
non-Error throw is reported with a generic text instead).  The weather
state is never touched on a failure, panels applied before the failing step
keep the values just applied, and panels at or after the failing step keep
the values they had before the run. -/
theorem failure_toast_and_frame (st : DashboardState) (r : FetchResults)
    (e : JSError) (h : firstError r = some e) :
    (fetchData st r).2 = [fetchErrorToast e] ∧
    (e.isInstanceOfError = true →
      strContains (fetchErrorToast e).text e.message = true) ∧
    (fetchData st r).1.weather = st.weather ∧
    (r.plansRes.error = some e →
      (fetchData st r).1.plans = st.plans ∧
      (fetchData st r).1.workflows = st.workflows ∧
      (fetchData st r).1.projects = st.projects) ∧
    (r.plansRes.error = none →
      (fetchData st r).1.plans = r.plansRes.data.getD [] ∧
      (r.workflowsRes.error.isSome = true →
        (fetchData st r).1.workflows = st.workflows ∧
        (fetchData st r).1.projects = st.projects) ∧
      (r.workflowsRes.error = none →
        (fetchData st r).1.workflows = r.workflowsRes.data.getD [] ∧
        (r.projectsRes.error.isSome = true →
          (fetchData st r).1.projects = st.projects) ∧
        (r.projectsRes.error = none →
          (fetchData st r).1.projects = r.projectsRes.data.getD []))) := by
  refine ⟨?_, fun hi => fetchErrorToast_contains e hi, ?_, ?_, ?_⟩ <;>
    (rcases r with ⟨⟨pd, pe⟩, ⟨wd, we⟩, ⟨jd, je⟩, wr⟩ ;
     cases pe <;> cases we <;> cases je <;> cases wr <;>
       simp_all [firstError, fetchData])

/-- Request results used to instantiate the C8 amended theorem: the
projects query fails with a proper `Error` instance after successful plans
and workflows queries. -/
def resultsC8w : FetchResults :=
  { plansRes := { data := some [], error := none },
    workflowsRes := { data := some [], error := none },
    projectsRes := { data := none,
                     error := some { message := "connection reset",
                                     isInstanceOfError := true } },
    weatherRes := .ok { main := { temp := { render := "20" } },
                        weather := [{ description := "haze" }],
                        name := "Kathmandu" } }

theorem failure_toast_and_frame_witness :
    (fetchData initialDashboardState resultsC8w).2 =
      [fetchErrorToast { message := "connection reset",
                         isInstanceOfError := true }] ∧
    strContains (fetchErrorToast { message := "connection reset",
                                   isInstanceOfError := true }).text
      "connection reset" = true := by
  have h := failure_toast_and_frame initialDashboardState resultsC8w
    { message := "connection reset", isInstanceOfError := true } rfl
  exact ⟨h.1, h.2.1 rfl⟩

/-- C9: the three collection panels start as the empty array, and each
fetch applies its result through the `data || []` fallback, so a
successful query whose `data` is null leaves that panel holding the empty
list. -/
theorem panels_empty_array_fallback (st : DashboardState)
    (r : FetchResults) :
    initialDashboardState.plans = [] ∧
    initialDashboardState.workflows = [] ∧
    initialDashboardState.projects = [] ∧
    (r.plansRes = { data := none, error := none } →
      (fetchData st r).1.plans = []) ∧
    (r.plansRes.error = none →
      r.workflowsRes = { data := none, error := none } →
      (fetchData st r).1.workflows = []) ∧
    (r.plansRes.error = none → r.workflowsRes.error = none →
      r.projectsRes = { data := none, error := none } →
      (fetchData st r).1.projects = []) := by
  refine ⟨rfl, rfl, rfl, fun h => ?_, fun hp h => ?_, fun hp hw h => ?_⟩
  · rw [fetchData_plans_out st r (by rw [h]), h]
    rfl
  · rw [fetchData_workflows_out st r hp (by rw [h]), h]
    rfl
  · rw [fetchData_projects_out st r hp hw (by rw [h]), h]
    rfl

/-- Request results used to instantiate the C9 theorem: all three queries
succeed with null `data`. -/
def resultsC9 : FetchResults :=
  { plansRes := { data := none, error := none },
    workflowsRes := { data := none, error := none },
    projectsRes := { data := none, error := none },
    weatherRes := .ok { main := { temp := { render := "20" } },
                        weather := [{ description := "haze" }],
                        name := "Kathmandu" } }

theorem panels_empty_array_fallback_witness :
    (fetchData initialDashboardState resultsC9).1.plans = [] ∧
    (fetchData initialDashboardState resultsC9).1.workflows = [] := by
  have h := panels_empty_array_fallback initialDashboardState resultsC9
  exact ⟨h.2.2.2.1 rfl, h.2.2.2.2.1 rfl rfl⟩
